import Mathlib

/-!
Shallow embedding of the proxy-aware search relay in `main.py` of the
Waves backend: proxy configuration resolution (`build_proxy_config`),
the two-attempt fetch with proxy fallback and the HTML result
extraction loop (`perform_duckduckgo_search`), the `/api/search`
endpoint with its limit clamping (`search`), and the AI ask wrapper
(`ai_ask`).

HTML parsing (BeautifulSoup) is represented abstractly: the parsed
document is the ordered list of nodes matching the result-body marker
class (`.result__body`), each carrying what the extraction loop reads
from it: the optional result-link anchor (`a.result__a`, with its
optional `href` attribute and its stripped text) and the optional
snippet text (`.result__snippet`, space-joined and stripped).  Network
calls are represented by their outcomes (`AttemptResult`), passed in
as parameters to the fetch phase.
-/

namespace Waves

/-- The result-link anchor of a candidate node: `href` is the optional
link attribute, `text` its visible text (already whitespace-collapsed
and trimmed, as produced by `get_text(strip=True)`). -/
structure Anchor where
  href : Option String
  text : String
deriving DecidableEq

/-- A node matching the result-body marker class: its optional
result-link anchor and its optional snippet text (already
space-joined and trimmed, as produced by `get_text(" ", strip=True)`). -/
structure Candidate where
  anchor : Option Anchor
  snippet : Option String
deriving DecidableEq

/-- A parsed search result record: `{"title": ..., "url": ..., "snippet": ...}`. -/
structure SearchResultRecord where
  title : String
  url : String
  snippet : String
deriving DecidableEq

/-- The guard of the extraction loop: `if not a or not a.get("href"): continue`.
A candidate is kept only when the anchor exists and its `href` is
present and non-empty (an empty Python string is falsy). -/
def candidateValid (c : Candidate) : Bool :=
  match c.anchor with
  | none => false
  | some a =>
    match a.href with
    | none => false
    | some h => !(h == "")

/-- The record built from a candidate: title from the anchor text,
url from the `href` attribute, snippet defaulting to the empty string
when the snippet node is absent. -/
def toRecord (c : Candidate) : SearchResultRecord :=
  { title := (c.anchor.map Anchor.text).getD ""
    url := (c.anchor.bind Anchor.href).getD ""
    snippet := c.snippet.getD "" }

/-- The extraction loop of `perform_duckduckgo_search` (lines 110-124):
for each candidate in document order, skip it when invalid, otherwise
append its record and break as soon as `len(results) >= max_results`. -/
def extractLoop (maxResults : Nat) : List Candidate → List SearchResultRecord → List SearchResultRecord
  | [], acc => acc
  | c :: rest, acc =>
    if candidateValid c then
      if maxResults ≤ (acc ++ [toRecord c]).length then acc ++ [toRecord c]
      else extractLoop maxResults rest (acc ++ [toRecord c])
    else extractLoop maxResults rest acc

/-- The parsing phase of `perform_duckduckgo_search`: run the loop over
the candidates in document order, starting from an empty result list. -/
def extract (cs : List Candidate) (maxResults : Nat) : List SearchResultRecord :=
  extractLoop maxResults cs []

/-- Outcome of one `requests.get(...)` + `raise_for_status()` attempt:
either a response body, or a transport-level failure (connect error,
timeout, non-2xx status) with its exception message. -/
inductive AttemptResult where
  | ok (body : String)
  | err (detail : String)
deriving DecidableEq

/-- The `HTTPException(status_code=502, detail=...)` raised by the fetch
phase on final failure. -/
structure TransportError where
  status : Nat
  detail : String
deriving DecidableEq

/-- The fetch phase of `perform_duckduckgo_search` (lines 95-106): one
attempt (through the proxy when `use_proxy` is true), and on any
failure, when `use_proxy` is true, one direct retry; if the retry also
fails, a 502 carrying the retry failure detail; when `use_proxy` is
false, a 502 with the fixed message "Search request failed". -/
def fetchPhase (use_proxy : Bool) (firstAttempt retryAttempt : AttemptResult) :
    Except TransportError String :=
  match firstAttempt with
  | .ok body => .ok body
  | .err _ =>
    if use_proxy then
      match retryAttempt with
      | .ok body => .ok body
      | .err e2 => .error ⟨502, "Search request failed: " ++ e2⟩
    else
      .error ⟨502, "Search request failed"⟩

/-- `perform_duckduckgo_search`: fetch, then parse the body into
candidates and extract up to `max_results` records.  `parse` stands
for `BeautifulSoup(resp.text, "html.parser")` followed by
`soup.select(".result__body")`. -/
def perform_duckduckgo_search (parse : String → List Candidate)
    (firstAttempt retryAttempt : AttemptResult)
    (max_results : Nat) (use_proxy : Bool) :
    Except TransportError (List SearchResultRecord) :=
  match fetchPhase use_proxy firstAttempt retryAttempt with
  | .error e => .error e
  | .ok body => .ok (extract (parse body) max_results)

/-- The environment variables read by `build_proxy_config`; `none`
models an unset variable. -/
structure Env where
  PROXY_HOST : Option String
  WAVES_PROXY_HOST : Option String
  PROXY_PORT : Option String
  WAVES_PROXY_PORT : Option String
  PROXY_SCHEME : Option String
  PROXY_USERNAME : Option String
  WAVES_PROXY_USER : Option String
  PROXY_PASSWORD : Option String
  WAVES_PROXY_PASS : Option String
deriving DecidableEq

/-- Python `a or b` on `os.getenv` results: the first operand when it
is a non-empty string, otherwise the second (both `None` and the empty
string are falsy). -/
def pyOr (a b : Option String) : Option String :=
  match a with
  | some s => if s = "" then b else some s
  | none => b

/-- Python `a or "default"`: the value when truthy, else the literal default. -/
def orDefault (a : Option String) (d : String) : String :=
  match a with
  | some s => if s = "" then d else s
  | none => d

/-- Python truthiness of an optional string: present and non-empty. -/
def truthy : Option String → Bool
  | none => false
  | some s => !(s == "")

/-- `host = os.getenv("PROXY_HOST") or os.getenv("WAVES_PROXY_HOST") or "93.127.130.22"`. -/
def resolvedHost (env : Env) : String :=
  orDefault (pyOr env.PROXY_HOST env.WAVES_PROXY_HOST) "93.127.130.22"

/-- `port = os.getenv("PROXY_PORT") or os.getenv("WAVES_PROXY_PORT") or "8080"`. -/
def resolvedPort (env : Env) : String :=
  orDefault (pyOr env.PROXY_PORT env.WAVES_PROXY_PORT) "8080"

/-- `scheme = (os.getenv("PROXY_SCHEME") or "http").lower()`. -/
def resolvedScheme (env : Env) : String :=
  (orDefault env.PROXY_SCHEME "http").toLower

/-- `username = os.getenv("PROXY_USERNAME") or os.getenv("WAVES_PROXY_USER")`. -/
def resolvedUsername (env : Env) : Option String :=
  pyOr env.PROXY_USERNAME env.WAVES_PROXY_USER

/-- `password = os.getenv("PROXY_PASSWORD") or os.getenv("WAVES_PROXY_PASS")`. -/
def resolvedPassword (env : Env) : Option String :=
  pyOr env.PROXY_PASSWORD env.WAVES_PROXY_PASS

/-- `auth = f"{username}:{password}@" if username and password else ""`. -/
def authPart (env : Env) : String :=
  if truthy (resolvedUsername env) && truthy (resolvedPassword env) then
    (resolvedUsername env).getD "" ++ ":" ++ (resolvedPassword env).getD "" ++ "@"
  else ""

/-- `proxy_url = f"{scheme}://{auth}{host}:{port}"`. -/
def proxyUrl (env : Env) : String :=
  resolvedScheme env ++ "://" ++ authPart env ++ resolvedHost env ++ ":" ++ resolvedPort env

/-- The returned dictionary `{"http": proxy_url, "https": proxy_url}`. -/
structure ProxyConfig where
  http : String
  https : String
deriving DecidableEq

/-- `build_proxy_config` (lines 72-84): resolve each setting, return
`None` when host or port is empty, otherwise the proxy dictionary. -/
def build_proxy_config (env : Env) : Option ProxyConfig :=
  if resolvedHost env = "" ∨ resolvedPort env = "" then none
  else some ⟨proxyUrl env, proxyUrl env⟩

/-- The `/api/search` handler clamp (line 130): `min(20, max(1, limit))`. -/
def clampLimit (limit : Int) : Int := min 20 (max 1 limit)

/-- The JSON envelope returned by the `/api/search` handler. -/
structure SearchResponseEnvelope where
  engine : String
  proxy : Option ProxyConfig
  query : String
  count : Nat
  results : List SearchResultRecord
deriving DecidableEq

/-- The `/api/search` handler (lines 128-137): search with the clamped
limit through the proxy path, then shape the envelope. -/
def search (env : Env) (parse : String → List Candidate)
    (firstAttempt retryAttempt : AttemptResult) (q : String) (limit : Int) :
    Except TransportError SearchResponseEnvelope :=
  match perform_duckduckgo_search parse firstAttempt retryAttempt (clampLimit limit).toNat true with
  | .error e => .error e
  | .ok items => .ok ⟨"Waves", build_proxy_config env, q, items.length, items⟩

/-- Python `a or b` on plain strings: the first when non-empty, else the second. -/
def pyOrStr (a b : String) : String := if a = "" then b else a

/-- The body of the `/api/ai/ask` response on success; `source` and
`title` are absent in the no-result fallback response. -/
structure AskResponse where
  answer : String
  source : Option String
  title : Option String
deriving DecidableEq

/-- The possible outcomes of the `/api/ai/ask` handler. -/
inductive AskOutcome where
  | badRequest (status : Nat) (detail : String)
  | transport (e : TransportError)
  | ok (r : AskResponse)
deriving DecidableEq

/-- Python `str.strip()` on a character list: drop leading and
trailing whitespace. -/
def stripChars (l : List Char) : List Char :=
  ((l.dropWhile Char.isWhitespace).reverse.dropWhile Char.isWhitespace).reverse

/-- Python `str.strip()`: the string with leading and trailing
whitespace removed. -/
def pyStrip (s : String) : String := ⟨stripChars s.data⟩

/-- `ai_ask` (lines 252-267): strip the prompt and reject it when
empty, search with `max_results=1` through the proxy path, return a
fixed fallback phrase when there are no results, otherwise answer with
the top snippet, else the top title, else a fixed default string. -/
def ai_ask (parse : String → List Candidate)
    (firstAttempt retryAttempt : AttemptResult) (prompt : String) : AskOutcome :=
  if pyStrip prompt = "" then .badRequest 400 "Empty prompt"
  else
    match perform_duckduckgo_search parse firstAttempt retryAttempt 1 true with
    | .error e => .transport e
    | .ok results =>
      match results with
      | [] => .ok ⟨"I couldn't find anything relevant right now.", none, none⟩
      | top :: _ =>
        .ok ⟨pyOrStr (pyOrStr top.snippet top.title) "I found a reference.",
             some top.url, some top.title⟩

/-- A concrete valid candidate used in witnesses and counterexamples. -/
def sampleValidCandidate : Candidate :=
  { anchor := some { href := some "https://example.com", text := "Example" }
    snippet := some "An example snippet" }

/-! Helper lemmas about the extraction loop. -/

/-- With a strictly available budget, the loop appends exactly the
prefix of the valid records that fills it. -/
theorem extractLoop_eq (m : Nat) (cs : List Candidate) :
    ∀ acc : List SearchResultRecord, acc.length < m →
      extractLoop m cs acc =
        acc ++ ((cs.filter candidateValid).map toRecord).take (m - acc.length) := by
  induction cs with
  | nil =>
    intro acc _
    simp [extractLoop]
  | cons c rest ih =>
    intro acc hlt
    by_cases hv : candidateValid c = true
    · by_cases hstop : m ≤ (acc ++ [toRecord c]).length
      · have hm : m - acc.length = 1 := by
          simp only [List.length_append, List.length_singleton] at hstop
          omega
        simp only [extractLoop]
        rw [if_pos hv, if_pos hstop]
        simp [List.filter_cons, hv, hm]
      · have h2 : (acc ++ [toRecord c]).length < m := by omega
        have hm : m - acc.length = (m - (acc ++ [toRecord c]).length) + 1 := by
          simp only [List.length_append, List.length_singleton]
          omega
        simp only [extractLoop, hv, if_true, hstop, if_false]
        rw [ih (acc ++ [toRecord c]) h2]
        simp [List.filter_cons, hv, hm, List.take_succ_cons]
    · simp only [extractLoop, hv]
      rw [ih acc hlt]
      simp [List.filter_cons, hv]

/-- For a positive limit, extraction is the `take` of the valid
records in document order. -/
theorem extract_eq_take (cs : List Candidate) (n : Nat) (h : 1 ≤ n) :
    extract cs n = ((cs.filter candidateValid).map toRecord).take n := by
  have he := extractLoop_eq n cs [] (by simpa using h)
  simpa [extract] using he

/-- Skipped candidates leave the loop state untouched, so running the
loop over the original candidates and over the valid ones coincide. -/
theorem extractLoop_filter_eq (m : Nat) (cs : List Candidate) :
    ∀ acc, extractLoop m cs acc = extractLoop m (cs.filter candidateValid) acc := by
  induction cs with
  | nil => intro acc; rfl
  | cons c rest ih =>
    intro acc
    by_cases hv : candidateValid c = true
    · simp only [List.filter_cons, hv, if_pos, extractLoop]
      by_cases hstop : m ≤ (acc ++ [toRecord c]).length
      · rw [if_pos hstop, if_pos hstop]
      · rw [if_neg hstop, if_neg hstop]
        exact ih _
    · simp only [List.filter_cons, extractLoop]
      rw [if_neg hv, if_neg hv]
      exact ih acc

/-- A kept candidate always yields a record with a non-empty url. -/
theorem toRecord_url_ne_empty (c : Candidate) (hv : candidateValid c = true) :
    (toRecord c).url ≠ "" := by
  rcases c with ⟨anchor, snip⟩
  rcases anchor with _ | ⟨href, t⟩
  · simp [candidateValid] at hv
  · rcases href with _ | s
    · simp [candidateValid] at hv
    · simp only [candidateValid, Bool.not_eq_true', beq_eq_false_iff_ne, ne_eq] at hv
      simpa [toRecord] using hv

/-- Every record reachable from the loop has a non-empty url, given
that the records already accumulated do. -/
theorem extractLoop_url_invariant (m : Nat) (cs : List Candidate) :
    ∀ acc, (∀ r ∈ acc, r.url ≠ "") → ∀ r ∈ extractLoop m cs acc, r.url ≠ "" := by
  induction cs with
  | nil =>
    intro acc hacc
    simpa [extractLoop] using hacc
  | cons c rest ih =>
    intro acc hacc
    by_cases hv : candidateValid c = true
    · have hacc2 : ∀ r ∈ acc ++ [toRecord c], r.url ≠ "" := by
        intro r hr
        rcases List.mem_append.mp hr with h | h
        · exact hacc r h
        · rw [List.mem_singleton.mp h]
          exact toRecord_url_ne_empty c hv
      simp only [extractLoop]
      rw [if_pos hv]
      by_cases hstop : m ≤ (acc ++ [toRecord c]).length
      · rw [if_pos hstop]; exact hacc2
      · rw [if_neg hstop]; exact ih _ hacc2
    · simp only [extractLoop]
      rw [if_neg hv]
      exact ih acc hacc

/-- A Python `or`-chain whose final default is non-empty never
resolves to the empty string. -/
theorem orDefault_ne_empty (a : Option String) (d : String) (hd : d ≠ "") :
    orDefault a d ≠ "" := by
  cases a with
  | none => exact hd
  | some s =>
    by_cases hs : s = ""
    · simpa [orDefault, hs] using hd
    · simp [orDefault, hs]

/-- A string ending in the at-sign is never empty. -/
theorem append_at_ne_empty (x : String) : x ++ "@" ≠ "" := by
  intro h
  have h2 := congrArg String.data h
  rw [String.congr_append] at h2
  simp at h2

/-! Claim theorems. -/

/-- C1 (amended): for every HTML input and every limit n with 1 ≤ n,
the extraction phase returns at most n records and exactly
min(n, valid_candidate_count) records, and the returned records are
the first valid candidates in document order of the source markup. -/
theorem extract_respects_limit (cs : List Candidate) (n : Nat) (h : 1 ≤ n) :
    extract cs n = ((cs.filter candidateValid).map toRecord).take n ∧
    (extract cs n).length = min n (cs.filter candidateValid).length := by
  have he := extract_eq_take cs n h
  refine ⟨he, ?_⟩
  rw [he, List.length_take, List.length_map]

theorem extract_respects_limit_witness :
    extract [sampleValidCandidate] 2 =
      (([sampleValidCandidate].filter candidateValid).map toRecord).take 2 ∧
    (extract [sampleValidCandidate] 2).length =
      min 2 ([sampleValidCandidate].filter candidateValid).length :=
  extract_respects_limit [sampleValidCandidate] 2 (by decide)

/-- C1 counterexample: at limit n = 0 with one valid candidate, the
extraction returns 1 record, not min(0, 1) = 0, so the claim as
stated over every limit n fails. -/
theorem extract_limit_zero_violation :
    ¬ ((extract [sampleValidCandidate] 0).length =
        min 0 ([sampleValidCandidate].filter candidateValid).length) := by
  decide

/-- C2: with max_results = 0 and at least one valid candidate, the
extraction returns exactly one record, because the limit check runs
only after a record has been appended. -/
theorem extract_zero_limit_one_record (cs : List Candidate)
    (h : cs.any candidateValid = true) :
    (extract cs 0).length = 1 := by
  unfold extract
  induction cs with
  | nil => simp at h
  | cons c rest ih =>
    by_cases hv : candidateValid c = true
    · simp only [extractLoop]
      rw [if_pos hv, if_pos (Nat.zero_le _)]
      simp
    · simp only [extractLoop]
      rw [if_neg hv]
      apply ih
      simpa [List.any_cons, hv] using h

theorem extract_zero_limit_one_record_witness :
    (extract [sampleValidCandidate] 0).length = 1 :=
  extract_zero_limit_one_record [sampleValidCandidate] (by decide)

/-- C3: when use_proxy is true and both the proxy attempt and the
direct retry fail, the surfaced TransportError carries the retry
attempt detail d2; the proxy attempt detail d1 does not appear in the
result, which is the same for every d1. -/
theorem fetch_fallback_surfaces_direct_error (d1 d2 : String) :
    fetchPhase true (.err d1) (.err d2) =
      .error ⟨502, "Search request failed: " ++ d2⟩ := rfl

/-- C4 counterexample: with use_proxy false, a failing direct attempt
surfaces the fixed detail "Search request failed"; the underlying
failure detail is dropped (two different failures surface the same
error), so the error does not carry the underlying detail message. -/
theorem fetch_direct_error_detail_dropped :
    fetchPhase false (.err "connection refused") (.ok "") =
      .error ⟨502, "Search request failed"⟩ ∧
    fetchPhase false (.err "connection refused") (.ok "") =
      fetchPhase false (.err "server timeout") (.ok "") ∧
    "Search request failed" ≠ "Search request failed: " ++ "connection refused" :=
  ⟨rfl, rfl, by decide⟩

/-- C4 (amended): every transport failure on the final attempt
surfaces a 502-status TransportError; when use_proxy is true it
carries the retry failure detail, while when use_proxy is false the
detail is the fixed string "Search request failed", which omits the
underlying failure detail. -/
theorem fetch_final_failure_is_502 (d1 d2 : String) :
    (fetchPhase true (.err d1) (.err d2) =
       .error ⟨502, "Search request failed: " ++ d2⟩) ∧
    (∀ r : AttemptResult, fetchPhase false (.err d1) r =
       .error ⟨502, "Search request failed"⟩) :=
  ⟨rfl, fun _ => rfl⟩

/-- C5: the search endpoint clamp evaluates to 1 when limit ≤ 0, to
20 when limit ≥ 21, and to the limit itself otherwise, and the
clamped value always lies in the interval from 1 to 20. -/
theorem clampLimit_spec (limit : Int) :
    clampLimit limit = (if limit ≤ 0 then 1 else if 21 ≤ limit then 20 else limit) ∧
    1 ≤ clampLimit limit ∧ clampLimit limit ≤ 20 := by
  unfold clampLimit
  rw [min_def, max_def]
  constructor
  · split_ifs <;> omega
  · split_ifs <;> omega

/-- C6: invalid candidates (no anchor, or an absent or empty link
target) never appear in the extraction output and do not consume a
slot in the limit (the output over all candidates equals the output
over the valid candidates alone); every record in the output has a
non-empty url, and the snippet defaults to the empty string whenever
the snippet node is absent in the markup. -/
theorem extract_skips_invalid_candidates (cs : List Candidate) (n : Nat)
    (r : SearchResultRecord) (hr : r ∈ extract cs n) :
    extract cs n = extract (cs.filter candidateValid) n ∧
    r.url ≠ "" ∧
    (∀ c : Candidate, c.snippet = none → (toRecord c).snippet = "") := by
  refine ⟨?_, ?_, ?_⟩
  · unfold extract
    exact extractLoop_filter_eq n cs []
  · exact extractLoop_url_invariant n cs [] (by simp) r hr
  · intro c hcnone
    simp [toRecord, hcnone]

theorem extract_skips_invalid_candidates_witness :
    extract [sampleValidCandidate] 1 =
      extract ([sampleValidCandidate].filter candidateValid) 1 ∧
    (toRecord sampleValidCandidate).url ≠ "" ∧
    (∀ c : Candidate, c.snippet = none → (toRecord c).snippet = "") :=
  extract_skips_invalid_candidates [sampleValidCandidate] 1
    (toRecord sampleValidCandidate) (by decide)

/-- C7: with zero candidates matching the result-body marker class —
as produced for malformed or unparseable markup — the extraction
returns the empty sequence; being a total function, it never raises. -/
theorem extract_no_candidates_empty (n : Nat) : extract [] n = [] := rfl

/-- C8: build_proxy_config returns the endpoint built from proxyUrl,
and the credential part of that URL is non-empty exactly when both the
resolved username and the resolved password are truthy (present and
non-empty); otherwise the URL carries no credential part. -/
theorem build_proxy_config_credentials_iff (env : Env) :
    build_proxy_config env = some ⟨proxyUrl env, proxyUrl env⟩ ∧
    (authPart env ≠ "" ↔
      (truthy (resolvedUsername env) = true ∧ truthy (resolvedPassword env) = true)) := by
  constructor
  · unfold build_proxy_config
    rw [if_neg]
    push_neg
    exact ⟨orDefault_ne_empty _ _ (by decide), orDefault_ne_empty _ _ (by decide)⟩
  · unfold authPart
    by_cases hb : (truthy (resolvedUsername env) && truthy (resolvedPassword env)) = true
    · rw [if_pos hb]
      rw [Bool.and_eq_true] at hb
      constructor
      · intro _; exact hb
      · intro _
        exact append_at_ne_empty _
    · rw [if_neg hb]
      constructor
      · intro hcon; exact absurd rfl hcon
      · intro hcon
        exact absurd (by simp [hcon.1, hcon.2]) hb

/-- C9: after applying the override/fallback/default precedence the
resolved host and port are never empty (the hard-coded defaults are
non-empty), so the absent branch of build_proxy_config is unreachable
and the function always returns a present endpoint. -/
theorem build_proxy_config_always_present (env : Env) :
    resolvedHost env ≠ "" ∧ resolvedPort env ≠ "" ∧
    (build_proxy_config env).isSome = true := by
  have hh : resolvedHost env ≠ "" := orDefault_ne_empty _ _ (by decide)
  have hp : resolvedPort env ≠ "" := orDefault_ne_empty _ _ (by decide)
  refine ⟨hh, hp, ?_⟩
  unfold build_proxy_config
  rw [if_neg (by push_neg; exact ⟨hh, hp⟩)]
  rfl

/-- C10: the AI ask handler searches with max_results = 1; on a
successful fetch, when no valid candidate exists it answers with the
fixed fallback phrase, and otherwise the answer is the top record
snippet when non-empty, else its title when non-empty, else the fixed
default string. -/
theorem ai_ask_top_result_answer (parse : String → List Candidate)
    (retryAttempt : AttemptResult) (body prompt : String)
    (hq : ¬ pyStrip prompt = "") :
    (((parse body).filter candidateValid = []) →
       ai_ask parse (.ok body) retryAttempt prompt =
         .ok ⟨"I couldn't find anything relevant right now.", none, none⟩) ∧
    (∀ c rest, (parse body).filter candidateValid = c :: rest →
       ai_ask parse (.ok body) retryAttempt prompt =
         .ok ⟨(if (toRecord c).snippet = "" then
                 (if (toRecord c).title = "" then "I found a reference."
                  else (toRecord c).title)
               else (toRecord c).snippet),
              some (toRecord c).url, some (toRecord c).title⟩) := by
  have hperf : perform_duckduckgo_search parse (.ok body) retryAttempt 1 true =
      .ok (extract (parse body) 1) := rfl
  have hex := extract_eq_take (parse body) 1 (le_refl 1)
  constructor
  · intro hnil
    unfold ai_ask
    rw [if_neg hq, hperf, hex, hnil]
    rfl
  · intro c rest hcons
    unfold ai_ask
    rw [if_neg hq, hperf, hex, hcons]
    by_cases hs : (toRecord c).snippet = "" <;>
      by_cases ht : (toRecord c).title = "" <;>
        simp [pyOrStr, hs, ht]

theorem ai_ask_top_result_answer_witness :
    ai_ask (fun _ => [sampleValidCandidate]) (.ok "page") (.ok "") "hi" =
      .ok ⟨(if (toRecord sampleValidCandidate).snippet = "" then
              (if (toRecord sampleValidCandidate).title = "" then "I found a reference."
               else (toRecord sampleValidCandidate).title)
            else (toRecord sampleValidCandidate).snippet),
           some (toRecord sampleValidCandidate).url,
           some (toRecord sampleValidCandidate).title⟩ :=
  (ai_ask_top_result_answer (fun _ => [sampleValidCandidate]) (.ok "") "page" "hi"
      (by decide)).2 sampleValidCandidate [] (by decide)

end Waves
